import Mathlib

/-!
Verification development for the tennis-reservation claim engine.

Shallow embedding of the repository's core modules:
* `message-classifier.ts` — classification of Spanish response messages,
* `schedule-resolver.ts` / `schedule-ids-complete.ts` — slot id resolution,
* `engine.ts` — concurrent dispatch (`executeInParallel`),
* `site-adapter.ts` — unlock polling (`pollForDateUnlock`),
* `scripts/reserve.ts` — midnight wait loop (`waitUntilMidnight`),
* the Playwright `reservePhase` step sequence with its ALLOW_BOOKING gate,
* `mobile-api-client.ts` — credential-hash selection in the constructor.

I/O-bound code is embedded as pure functions over explicit oracles
(poll-observation functions, step-success records); clock time is modelled in
milliseconds as `Nat`, with the idealized exact polling cadence the spec's
"zero clock skew" hypothesis describes.
-/

/-! ## Message classifier (`src/message-classifier.ts`)

The classifier normalizes the input (lowercase, strip diacritics, collapse
whitespace) and then applies its regex rules.  On a whitespace-collapsed
string, `\s+` can only match a single space and `\s*` zero or one space, so
each regex reduces to ordered-substring tests, embedded below. -/

/-- `toLowerCase` on the character set the classifier meets: ASCII letters plus
the Spanish accented vowels and enye used by the remote system's messages. -/
def jsLower (c : Char) : Char :=
  if 'A' ≤ c ∧ c ≤ 'Z' then Char.ofNat (c.toNat + 32)
  else if c = 'Á' then 'á'
  else if c = 'É' then 'é'
  else if c = 'Í' then 'í'
  else if c = 'Ó' then 'ó'
  else if c = 'Ú' then 'ú'
  else if c = 'Ü' then 'ü'
  else if c = 'Ñ' then 'ñ'
  else c

/-- NFD-then-strip-combining-marks on the same character set: each lowercase
accented letter decomposes into its base letter plus a mark in U+0300–U+036F,
so stripping the marks leaves the base letter. -/
def stripDiacritic (c : Char) : Char :=
  if c = 'á' then 'a'
  else if c = 'é' then 'e'
  else if c = 'í' then 'i'
  else if c = 'ó' then 'o'
  else if c = 'ú' then 'u'
  else if c = 'ü' then 'u'
  else if c = 'ñ' then 'n'
  else c

/-- The JavaScript `\s` class, restricted to the whitespace characters that can
occur in the remote messages. -/
def isJsSpace (c : Char) : Bool :=
  c == ' ' || c == '\t' || c == '\n' || c == '\r' || c == '\x0b' || c == '\x0c'

/-- `replace(/\s+/g, " ")`: collapse each maximal whitespace run to one space.
The flag records whether the previous character was part of a run. -/
def collapseWsAux : Bool → List Char → List Char
  | _, [] => []
  | prevSpace, c :: t =>
    if isJsSpace c then
      if prevSpace then collapseWsAux true t else ' ' :: collapseWsAux true t
    else c :: collapseWsAux false t

/-- The classifier's normalization pipeline:
`toLowerCase` → NFD → strip U+0300–U+036F → collapse whitespace. -/
def normalizeMsg (s : String) : String :=
  String.mk (collapseWsAux false (s.data.map (fun c => stripDiacritic (jsLower c))))

/-- Find the first occurrence of `pat` in `s` and return what follows it. -/
def findDrop (pat : List Char) : List Char → Option (List Char)
  | [] => if pat = [] then some [] else none
  | c :: t =>
    if pat.isPrefixOf (c :: t) then some ((c :: t).drop pat.length)
    else findDrop pat t

/-- Ordered-substring matching: each part occurs, each strictly after the end
of the previous one.  `seqMatch [a, b]` is the regex `a.*b` (no newlines remain
after whitespace collapsing, so `.` matches every character). -/
def seqMatch : List (List Char) → List Char → Bool
  | [], _ => true
  | p :: rest, s =>
    match findDrop p s with
    | some s' => seqMatch rest s'
    | none => false

/-- Substring test (a single-part `seqMatch`). -/
def hasSub (s : List Char) (pat : String) : Bool :=
  (findDrop pat.data s).isSome

/-- `/se\s+ha\s+realizado.*exito/` on normalized text. -/
def reSuccess (m : List Char) : Bool :=
  seqMatch ["se ha realizado".data, "exito".data] m

/-- `/aun\s+no\s+esta\s+disponible/ ∨ /no\s+(esta|se\s+encuentra)\s+(disponible|habilitada)/`
conjoined with `/(reservacion|reservaciones)/`, on normalized text. -/
def reNotAvail (m : List Char) : Bool :=
  (hasSub m "aun no esta disponible" ||
    (hasSub m "no esta disponible" || hasSub m "no esta habilitada" ||
      hasSub m "no se encuentra disponible" || hasSub m "no se encuentra habilitada")) &&
  (hasSub m "reservacion" || hasSub m "reservaciones")

/-- `/(ya\s+existen\s+otras\s+reservaciones|excede\s+la\s+cantidad\s+maxima)/`. -/
def reSlotTaken (m : List Char) : Bool :=
  hasSub m "ya existen otras reservaciones" || hasSub m "excede la cantidad maxima"

/-- `/(ya\s*ha\s*sobrepasado.*limite|sobrepasado.*limite\s+permitido)/`: on
whitespace-collapsed text each `\s*` matches zero or one space, giving the four
spellings of the first alternative. -/
def reLimit (m : List Char) : Bool :=
  seqMatch ["ya ha sobrepasado".data, "limite".data] m ||
  seqMatch ["yaha sobrepasado".data, "limite".data] m ||
  seqMatch ["ya hasobrepasado".data, "limite".data] m ||
  seqMatch ["yahasobrepasado".data, "limite".data] m ||
  seqMatch ["sobrepasado".data, "limite permitido".data] m

/-- After the digit run of `/(\d+)\s+dias?\s+(antes|previo|previos)/`: a space,
`dia` with optional `s`, a space, then one of the closing words. -/
def daysTail (r : List Char) : Bool :=
  let spaceAlt : List Char → Bool := fun r2 =>
    " antes".data.isPrefixOf r2 || " previo".data.isPrefixOf r2 ||
      " previos".data.isPrefixOf r2
  " dia".data.isPrefixOf r &&
    (spaceAlt (r.drop 4) || ("s".data.isPrefixOf (r.drop 4) && spaceAlt (r.drop 5)))

/-- Leftmost match of `/(\d+)\s+dias?\s+(antes|previo|previos)/`, returning
capture group 1 (the digit run). -/
def findDaysNum : List Char → Option String
  | [] => none
  | c :: t =>
    if c.isDigit then
      if daysTail ((c :: t).dropWhile Char.isDigit) then
        some (String.mk ((c :: t).takeWhile Char.isDigit))
      else findDaysNum t
    else findDaysNum t

/-- The five-way outcome taxonomy of `message-classifier.ts`. -/
inductive MessageType where
  | SUCCESS
  | SLOT_TAKEN
  | RESERVATION_LIMIT
  | NOT_YET_AVAILABLE
  | UNKNOWN
deriving DecidableEq, Repr

/-- `ClassifiedMessage` record of `message-classifier.ts`. -/
structure ClassifiedMessage where
  type : MessageType
  friendlyMessage : String
  rawMessage : String
  days : Option String
deriving DecidableEq, Repr

/-- `classifyMessage` from `src/message-classifier.ts`: empty input short-cut,
then the rule chain SUCCESS → NOT_YET_AVAILABLE → SLOT_TAKEN →
RESERVATION_LIMIT → UNKNOWN over the normalized text. -/
def classifyMessage (message : String) : ClassifiedMessage :=
  if message = "" then
    { type := .UNKNOWN
      friendlyMessage := "No response content found"
      rawMessage := ""
      days := none }
  else
    let msg : List Char := (normalizeMsg message).data
    if reSuccess msg then
      { type := .SUCCESS
        friendlyMessage := "Reservation successful"
        rawMessage := message
        days := none }
    else if reNotAvail msg then
      let d : Option String := findDaysNum msg
      { type := .NOT_YET_AVAILABLE
        friendlyMessage :=
          "Date not available yet - reservations open " ++ d.getD "?" ++ " days before"
        rawMessage := message
        days := d }
    else if reSlotTaken msg then
      { type := .SLOT_TAKEN
        friendlyMessage := "Time slot already taken - someone else reserved it first"
        rawMessage := message
        days := none }
    else if reLimit msg then
      { type := .RESERVATION_LIMIT
        friendlyMessage :=
          "Reservation limit exceeded - you have already used your allowed reservations"
        rawMessage := message
        days := none }
    else
      { type := .UNKNOWN
        friendlyMessage := "Could not classify response: \"" ++ message ++ "\""
        rawMessage := message
        days := none }

/-- `ErrorResult` record of `src/error-detection.ts` (`detectError`); the
`frameUrl` field just copies `frame.url()`. -/
structure ErrorResult where
  type : MessageType
  message : String
  days : Option String
  rawMessage : String
  frameUrl : String
deriving DecidableEq, Repr

/-- `detectError` from `src/error-detection.ts`, the claim's second cited
classifier implementation, embedded over the extracted message text
(`<!--APP::...::APP-->` marker or body-text fallback) and the frame URL.  Its
patterns and normalization are identical to `classifyMessage`'s, but its rule
chain is NOT_YET_AVAILABLE → SLOT_TAKEN → RESERVATION_LIMIT → SUCCESS →
UNKNOWN: SUCCESS is checked last. -/
def detectError (messageToCheck : String) (frameUrl : String) : ErrorResult :=
  if messageToCheck = "" then
    { type := .UNKNOWN
      message := "No response content found"
      days := none
      rawMessage := ""
      frameUrl := frameUrl }
  else
    let msg : List Char := (normalizeMsg messageToCheck).data
    if reNotAvail msg then
      { type := .NOT_YET_AVAILABLE
        message := "Not available yet"
        days := findDaysNum msg
        rawMessage := messageToCheck
        frameUrl := frameUrl }
    else if reSlotTaken msg then
      { type := .SLOT_TAKEN
        message := "Time slot already taken - someone else reserved it first"
        days := none
        rawMessage := messageToCheck
        frameUrl := frameUrl }
    else if reLimit msg then
      { type := .RESERVATION_LIMIT
        message := "Reservation limit exceeded - you have already used your allowed reservations"
        days := none
        rawMessage := messageToCheck
        frameUrl := frameUrl }
    else if reSuccess msg then
      { type := .SUCCESS
        message := "Reservation successful"
        days := none
        rawMessage := messageToCheck
        frameUrl := frameUrl }
    else
      { type := .UNKNOWN
        message := "Could not classify response"
        days := none
        rawMessage := messageToCheck
        frameUrl := frameUrl }

/-! ## Theorems about the classifier (claims C2 and C7) -/

/-- C2 (counterexample): the claimed fixed order — SUCCESS first, then
SLOT_TAKEN before NOT_YET_AVAILABLE — fails on both cited implementations.
`classifyMessage` classifies an input matching both the slot-taken and the
not-yet-available patterns as NOT_YET_AVAILABLE, because it checks the
not-yet-available pattern second, right after SUCCESS; and `detectError`
classifies an input matching both the success and the slot-taken patterns as
SLOT_TAKEN, because it checks SUCCESS last, not first. -/
theorem classify_order_counterexample :
    reSlotTaken (normalizeMsg
      "ya existen otras reservaciones y la fecha no esta disponible para reservacion").data
        = true ∧
    reNotAvail (normalizeMsg
      "ya existen otras reservaciones y la fecha no esta disponible para reservacion").data
        = true ∧
    (classifyMessage
      "ya existen otras reservaciones y la fecha no esta disponible para reservacion").type
        = MessageType.NOT_YET_AVAILABLE ∧
    MessageType.NOT_YET_AVAILABLE ≠ MessageType.SLOT_TAKEN ∧
    reSuccess (normalizeMsg
      "su reservacion se ha realizado con exito pero excede la cantidad maxima").data
        = true ∧
    reSlotTaken (normalizeMsg
      "su reservacion se ha realizado con exito pero excede la cantidad maxima").data
        = true ∧
    (detectError
      "su reservacion se ha realizado con exito pero excede la cantidad maxima" "").type
        = MessageType.SLOT_TAKEN ∧
    MessageType.SLOT_TAKEN ≠ MessageType.SUCCESS := by
  refine ⟨by decide, by decide, by decide, by decide, by decide, by decide,
    by decide, by decide⟩

/-- C2 (amended): each of the two classifier implementations applies its rules
in a fixed order with first match winning and any unmatched input yielding
UNKNOWN.  `classifyMessage` checks SUCCESS → NOT_YET_AVAILABLE → SLOT_TAKEN →
RESERVATION_LIMIT, so there SUCCESS is checked before every failure pattern;
`detectError` checks NOT_YET_AVAILABLE → SLOT_TAKEN → RESERVATION_LIMIT →
SUCCESS, checking SUCCESS last. -/
theorem classify_rule_order (m u : String) :
    (reSuccess (normalizeMsg m).data = true →
      (classifyMessage m).type = MessageType.SUCCESS) ∧
    (reSuccess (normalizeMsg m).data = false →
      reNotAvail (normalizeMsg m).data = true →
      (classifyMessage m).type = MessageType.NOT_YET_AVAILABLE) ∧
    (reSuccess (normalizeMsg m).data = false →
      reNotAvail (normalizeMsg m).data = false →
      reSlotTaken (normalizeMsg m).data = true →
      (classifyMessage m).type = MessageType.SLOT_TAKEN) ∧
    (reSuccess (normalizeMsg m).data = false →
      reNotAvail (normalizeMsg m).data = false →
      reSlotTaken (normalizeMsg m).data = false →
      reLimit (normalizeMsg m).data = true →
      (classifyMessage m).type = MessageType.RESERVATION_LIMIT) ∧
    (reSuccess (normalizeMsg m).data = false →
      reNotAvail (normalizeMsg m).data = false →
      reSlotTaken (normalizeMsg m).data = false →
      reLimit (normalizeMsg m).data = false →
      (classifyMessage m).type = MessageType.UNKNOWN) ∧
    (reNotAvail (normalizeMsg m).data = true →
      (detectError m u).type = MessageType.NOT_YET_AVAILABLE) ∧
    (reNotAvail (normalizeMsg m).data = false →
      reSlotTaken (normalizeMsg m).data = true →
      (detectError m u).type = MessageType.SLOT_TAKEN) ∧
    (reNotAvail (normalizeMsg m).data = false →
      reSlotTaken (normalizeMsg m).data = false →
      reLimit (normalizeMsg m).data = true →
      (detectError m u).type = MessageType.RESERVATION_LIMIT) ∧
    (reNotAvail (normalizeMsg m).data = false →
      reSlotTaken (normalizeMsg m).data = false →
      reLimit (normalizeMsg m).data = false →
      reSuccess (normalizeMsg m).data = true →
      (detectError m u).type = MessageType.SUCCESS) ∧
    (reNotAvail (normalizeMsg m).data = false →
      reSlotTaken (normalizeMsg m).data = false →
      reLimit (normalizeMsg m).data = false →
      reSuccess (normalizeMsg m).data = false →
      (detectError m u).type = MessageType.UNKNOWN) := by
  by_cases hm : m = ""
  · subst hm
    exact ⟨fun h1 => absurd h1 (by decide), fun h1 h2 => absurd h2 (by decide),
      fun h1 h2 h3 => absurd h3 (by decide), fun h1 h2 h3 h4 => absurd h4 (by decide),
      fun h1 h2 h3 h4 => by decide,
      fun h1 => absurd h1 (by decide), fun h1 h2 => absurd h2 (by decide),
      fun h1 h2 h3 => absurd h3 (by decide),
      fun h1 h2 h3 h4 => absurd h4 (by decide),
      fun h1 h2 h3 h4 => by simp [detectError]⟩
  · refine ⟨fun h1 => ?_, fun h1 h2 => ?_, fun h1 h2 h3 => ?_,
      fun h1 h2 h3 h4 => ?_, fun h1 h2 h3 h4 => ?_,
      fun h2 => ?_, fun h2 h3 => ?_, fun h2 h3 h4 => ?_,
      fun h2 h3 h4 h1 => ?_, fun h2 h3 h4 h1 => ?_⟩
    · simp [classifyMessage, hm, h1]
    · simp [classifyMessage, hm, h1, h2]
    · simp [classifyMessage, hm, h1, h2, h3]
    · simp [classifyMessage, hm, h1, h2, h3, h4]
    · simp [classifyMessage, hm, h1, h2, h3, h4]
    · simp [detectError, hm, h2]
    · simp [detectError, hm, h2, h3]
    · simp [detectError, hm, h2, h3, h4]
    · simp [detectError, hm, h1, h2, h3, h4]
    · simp [detectError, hm, h1, h2, h3, h4]

/-- C2 (witness): the rule-order theorem applied at a concrete success message
and a concrete slot-taken message for `classifyMessage`, and at a concrete
success message for `detectError` (where SUCCESS is only reached after the
three failure patterns miss). -/
theorem classify_rule_order_witness :
    (classifyMessage "Su reservación se ha realizado con éxito y ya se encuentra aprobada.").type
        = MessageType.SUCCESS ∧
    (classifyMessage "Su reservación excede la cantidad máxima de personas").type
        = MessageType.SLOT_TAKEN ∧
    (detectError "Su reservación se ha realizado con éxito y ya se encuentra aprobada."
        "https://parquesdelsol.sasweb.net/new_reservation.php").type
        = MessageType.SUCCESS :=
  ⟨(classify_rule_order _ "").1 (by decide),
   (classify_rule_order _ "").2.2.1 (by decide) (by decide) (by decide),
   (classify_rule_order _
      "https://parquesdelsol.sasweb.net/new_reservation.php").2.2.2.2.2.2.2.2.1
      (by decide) (by decide) (by decide) (by decide)⟩

/-- C7: `classifyMessage` is a total function (it is defined on every input
string and always produces a well-formed record whose raw message is exactly
the input), and on the empty input — the JavaScript falsy case for strings — it
returns type UNKNOWN with the explicit friendly message
"No response content found" and an empty raw message. -/
theorem classify_total_empty_input :
    classifyMessage "" =
      { type := MessageType.UNKNOWN
        friendlyMessage := "No response content found"
        rawMessage := ""
        days := none } ∧
    ∀ m : String, (classifyMessage m).rawMessage = m := by
  refine ⟨by decide, fun m => ?_⟩
  by_cases hm : m = ""
  · subst hm; decide
  · unfold classifyMessage
    rw [if_neg hm]
    dsimp only
    repeat first | rfl | split

/-! ## Schedule resolver (`src/schedule-resolver.ts`, `schedule-ids-complete.ts`)

Dates enter the resolver only through `date.getDay()`, so a date is embedded as
its JavaScript day index (`Fin 7`, 0 = Sunday). -/

/-- The `DayOfWeek` union type of `schedule-ids-complete.ts`. -/
inductive DayName where
  | Monday
  | Tuesday
  | Wednesday
  | Thursday
  | Friday
  | Saturday
  | Sunday
deriving DecidableEq, Repr

/-- Day names as written in the source. -/
def dayNameStr : DayName → String
  | DayName.Monday => "Monday"
  | DayName.Tuesday => "Tuesday"
  | DayName.Wednesday => "Wednesday"
  | DayName.Thursday => "Thursday"
  | DayName.Friday => "Friday"
  | DayName.Saturday => "Saturday"
  | DayName.Sunday => "Sunday"

/-- `getDayOfWeekName`: indexes the array
`[Sunday, Monday, Tuesday, Wednesday, Thursday, Friday, Saturday]` with
`date.getDay()`. -/
def getDayOfWeekName : Fin 7 → DayName
  | ⟨0, _⟩ => DayName.Sunday
  | ⟨1, _⟩ => DayName.Monday
  | ⟨2, _⟩ => DayName.Tuesday
  | ⟨3, _⟩ => DayName.Wednesday
  | ⟨4, _⟩ => DayName.Thursday
  | ⟨5, _⟩ => DayName.Friday
  | ⟨6, _⟩ => DayName.Saturday

/-- The `"5" | "7"` court id union type (`5` = Court 1, `7` = Court 2). -/
inductive CourtId where
  | five
  | seven
deriving DecidableEq, Repr

/-- Court ids as written in the source. -/
def courtIdStr : CourtId → String
  | CourtId.five => "5"
  | CourtId.seven => "7"

/-- `COURT1_SCHEDULE_IDS` from `schedule-ids-complete.ts`: Court 1 (area 5)
day-of-week to ordered (time-window, schedule-id) association list, in source
order. -/
def COURT1_SCHEDULE_IDS : DayName → List (String × String)
  | DayName.Monday =>
   [
    ("06:00 AM - 07:00 AM", "239"),
    ("07:00 AM - 08:00 AM", "246"),
    ("08:00 AM - 09:00 AM", "253"),
    ("09:00 AM - 10:00 AM", "260"),
    ("10:00 AM - 11:00 AM", "267"),
    ("11:00 AM - 12:00 PM", "274"),
    ("12:00 PM - 01:00 PM", "281"),
    ("01:00 PM - 02:00 PM", "288"),
    ("02:00 PM - 03:00 PM", "295"),
    ("03:00 PM - 04:00 PM", "302"),
    ("04:00 PM - 05:00 PM", "309"),
    ("05:00 PM - 06:00 PM", "316"),
    ("06:00 PM - 07:00 PM", "323")]
  | DayName.Tuesday =>
   [
    ("06:00 AM - 07:00 AM", "240"),
    ("07:00 AM - 08:00 AM", "247"),
    ("08:00 AM - 09:00 AM", "254"),
    ("09:00 AM - 10:00 AM", "261"),
    ("10:00 AM - 11:00 AM", "268"),
    ("11:00 AM - 12:00 PM", "275"),
    ("12:00 PM - 01:00 PM", "282"),
    ("01:00 PM - 02:00 PM", "289"),
    ("02:00 PM - 03:00 PM", "296"),
    ("03:00 PM - 04:00 PM", "303"),
    ("04:00 PM - 05:00 PM", "310"),
    ("05:00 PM - 06:00 PM", "317"),
    ("06:00 PM - 07:00 PM", "324")]
  | DayName.Wednesday =>
   [
    ("06:00 AM - 07:00 AM", "241"),
    ("07:00 AM - 08:00 AM", "248"),
    ("08:00 AM - 09:00 AM", "255"),
    ("09:00 AM - 10:00 AM", "262"),
    ("10:00 AM - 11:00 AM", "269"),
    ("11:00 AM - 12:00 PM", "276"),
    ("12:00 PM - 01:00 PM", "283"),
    ("01:00 PM - 02:00 PM", "290"),
    ("02:00 PM - 03:00 PM", "297"),
    ("03:00 PM - 04:00 PM", "304"),
    ("04:00 PM - 05:00 PM", "311"),
    ("05:00 PM - 06:00 PM", "318"),
    ("06:00 PM - 07:00 PM", "325")]
  | DayName.Thursday =>
   [
    ("06:00 AM - 07:00 AM", "242"),
    ("07:00 AM - 08:00 AM", "249"),
    ("08:00 AM - 09:00 AM", "256"),
    ("09:00 AM - 10:00 AM", "263"),
    ("10:00 AM - 11:00 AM", "270"),
    ("11:00 AM - 12:00 PM", "277"),
    ("12:00 PM - 01:00 PM", "284"),
    ("01:00 PM - 02:00 PM", "291"),
    ("02:00 PM - 03:00 PM", "298"),
    ("03:00 PM - 04:00 PM", "305"),
    ("04:00 PM - 05:00 PM", "312"),
    ("05:00 PM - 06:00 PM", "319"),
    ("06:00 PM - 07:00 PM", "326")]
  | DayName.Friday =>
   [
    ("06:00 AM - 07:00 AM", "243"),
    ("07:00 AM - 08:00 AM", "250"),
    ("08:00 AM - 09:00 AM", "257"),
    ("09:00 AM - 10:00 AM", "264"),
    ("10:00 AM - 11:00 AM", "271"),
    ("11:00 AM - 12:00 PM", "278"),
    ("12:00 PM - 01:00 PM", "285"),
    ("01:00 PM - 02:00 PM", "292"),
    ("02:00 PM - 03:00 PM", "299"),
    ("03:00 PM - 04:00 PM", "306"),
    ("04:00 PM - 05:00 PM", "313"),
    ("05:00 PM - 06:00 PM", "320"),
    ("06:00 PM - 07:00 PM", "327")]
  | DayName.Saturday =>
   [
    ("06:00 AM - 07:00 AM", "244"),
    ("07:00 AM - 08:00 AM", "251"),
    ("08:00 AM - 09:00 AM", "258"),
    ("09:00 AM - 10:00 AM", "265"),
    ("10:00 AM - 11:00 AM", "272"),
    ("11:00 AM - 12:00 PM", "279"),
    ("12:00 PM - 01:00 PM", "286"),
    ("01:00 PM - 02:00 PM", "293"),
    ("02:00 PM - 03:00 PM", "300"),
    ("03:00 PM - 04:00 PM", "307"),
    ("04:00 PM - 05:00 PM", "314"),
    ("05:00 PM - 06:00 PM", "321"),
    ("06:00 PM - 07:00 PM", "328")]
  | DayName.Sunday =>
   [
    ("06:00 AM - 07:00 AM", "245"),
    ("07:00 AM - 08:00 AM", "252"),
    ("08:00 AM - 09:00 AM", "259"),
    ("09:00 AM - 10:00 AM", "266"),
    ("10:00 AM - 11:00 AM", "273"),
    ("11:00 AM - 12:00 PM", "280"),
    ("12:00 PM - 01:00 PM", "287"),
    ("01:00 PM - 02:00 PM", "294"),
    ("02:00 PM - 03:00 PM", "301"),
    ("03:00 PM - 04:00 PM", "308"),
    ("04:00 PM - 05:00 PM", "315"),
    ("05:00 PM - 06:00 PM", "322"),
    ("06:00 PM - 07:00 PM", "329")]

/-- `COURT2_SCHEDULE_IDS` from `schedule-ids-complete.ts`: Court 2 (area 7)
day-of-week to ordered (time-window, schedule-id) association list, in source
order. -/
def COURT2_SCHEDULE_IDS : DayName → List (String × String)
  | DayName.Monday =>
   [
    ("06:00 AM - 07:00 AM", "337"),
    ("07:00 AM - 08:00 AM", "344"),
    ("08:00 AM - 09:00 AM", "351"),
    ("09:00 AM - 10:00 AM", "358"),
    ("10:00 AM - 11:00 AM", "365"),
    ("11:00 AM - 12:00 PM", "372"),
    ("12:00 PM - 01:00 PM", "379"),
    ("01:00 PM - 02:00 PM", "386"),
    ("02:00 PM - 03:00 PM", "393"),
    ("03:00 PM - 04:00 PM", "400"),
    ("04:00 PM - 05:00 PM", "407"),
    ("05:00 PM - 06:00 PM", "1141"),
    ("06:00 PM - 07:00 PM", "414")]
  | DayName.Tuesday =>
   [
    ("06:00 AM - 07:00 AM", "338"),
    ("07:00 AM - 08:00 AM", "345"),
    ("08:00 AM - 09:00 AM", "352"),
    ("09:00 AM - 10:00 AM", "359"),
    ("10:00 AM - 11:00 AM", "366"),
    ("11:00 AM - 12:00 PM", "373"),
    ("12:00 PM - 01:00 PM", "380"),
    ("01:00 PM - 02:00 PM", "387"),
    ("02:00 PM - 03:00 PM", "394"),
    ("03:00 PM - 04:00 PM", "401"),
    ("04:00 PM - 05:00 PM", "408"),
    ("05:00 PM - 06:00 PM", "1142"),
    ("06:00 PM - 07:00 PM", "415")]
  | DayName.Wednesday =>
   [
    ("06:00 AM - 07:00 AM", "339"),
    ("07:00 AM - 08:00 AM", "346"),
    ("08:00 AM - 09:00 AM", "353"),
    ("09:00 AM - 10:00 AM", "360"),
    ("10:00 AM - 11:00 AM", "367"),
    ("11:00 AM - 12:00 PM", "374"),
    ("12:00 PM - 01:00 PM", "381"),
    ("01:00 PM - 02:00 PM", "388"),
    ("02:00 PM - 03:00 PM", "395"),
    ("03:00 PM - 04:00 PM", "402"),
    ("04:00 PM - 05:00 PM", "409"),
    ("05:00 PM - 06:00 PM", "1143"),
    ("06:00 PM - 07:00 PM", "416")]
  | DayName.Thursday =>
   [
    ("06:00 AM - 07:00 AM", "340"),
    ("07:00 AM - 08:00 AM", "347"),
    ("08:00 AM - 09:00 AM", "354"),
    ("09:00 AM - 10:00 AM", "361"),
    ("10:00 AM - 11:00 AM", "368"),
    ("11:00 AM - 12:00 PM", "375"),
    ("12:00 PM - 01:00 PM", "382"),
    ("01:00 PM - 02:00 PM", "389"),
    ("02:00 PM - 03:00 PM", "396"),
    ("03:00 PM - 04:00 PM", "403"),
    ("04:00 PM - 05:00 PM", "410"),
    ("05:00 PM - 06:00 PM", "1144"),
    ("06:00 PM - 07:00 PM", "417")]
  | DayName.Friday =>
   [
    ("06:00 AM - 07:00 AM", "341"),
    ("07:00 AM - 08:00 AM", "348"),
    ("08:00 AM - 09:00 AM", "355"),
    ("09:00 AM - 10:00 AM", "362"),
    ("10:00 AM - 11:00 AM", "369"),
    ("11:00 AM - 12:00 PM", "376"),
    ("12:00 PM - 01:00 PM", "383"),
    ("01:00 PM - 02:00 PM", "390"),
    ("02:00 PM - 03:00 PM", "397"),
    ("03:00 PM - 04:00 PM", "404"),
    ("04:00 PM - 05:00 PM", "411"),
    ("05:00 PM - 06:00 PM", "1145"),
    ("06:00 PM - 07:00 PM", "418")]
  | DayName.Saturday =>
   [
    ("06:00 AM - 07:00 AM", "342"),
    ("07:00 AM - 08:00 AM", "349"),
    ("08:00 AM - 09:00 AM", "356"),
    ("09:00 AM - 10:00 AM", "363"),
    ("10:00 AM - 11:00 AM", "370"),
    ("11:00 AM - 12:00 PM", "377"),
    ("12:00 PM - 01:00 PM", "384"),
    ("01:00 PM - 02:00 PM", "391"),
    ("02:00 PM - 03:00 PM", "398"),
    ("03:00 PM - 04:00 PM", "405"),
    ("04:00 PM - 05:00 PM", "412"),
    ("05:00 PM - 06:00 PM", "1146"),
    ("06:00 PM - 07:00 PM", "419")]
  | DayName.Sunday =>
   [
    ("06:00 AM - 07:00 AM", "343"),
    ("07:00 AM - 08:00 AM", "350"),
    ("08:00 AM - 09:00 AM", "357"),
    ("09:00 AM - 10:00 AM", "364"),
    ("10:00 AM - 11:00 AM", "371"),
    ("11:00 AM - 12:00 PM", "378"),
    ("12:00 PM - 01:00 PM", "385"),
    ("01:00 PM - 02:00 PM", "392"),
    ("02:00 PM - 03:00 PM", "399"),
    ("03:00 PM - 04:00 PM", "406"),
    ("04:00 PM - 05:00 PM", "413"),
    ("05:00 PM - 06:00 PM", "1147"),
    ("06:00 PM - 07:00 PM", "420")]

/-- The `courtId === "5" ? COURT1_SCHEDULE_IDS : COURT2_SCHEDULE_IDS` selection
shared by the resolver functions. -/
def courtMapping : CourtId → DayName → List (String × String)
  | CourtId.five => COURT1_SCHEDULE_IDS
  | CourtId.seven => COURT2_SCHEDULE_IDS

/-- JavaScript object-key access `mapping[dayName]?.[timeSlot]` over the
association-list embedding of the schedule objects. -/
def lookupSlot : List (String × String) → String → Option String
  | [], _ => none
  | (k, v) :: t, slot => if k = slot then some v else lookupSlot t slot

/-- The error message thrown by `resolveScheduleId` on a miss, enumerating the
valid time-windows for that court and day. -/
def noScheduleMsg (courtId : CourtId) (dayName : DayName) (timeSlot : String) : String :=
  "No schedule ID found for Court " ++ courtIdStr courtId ++ ", " ++
    dayNameStr dayName ++ ", " ++ timeSlot ++ ". Available time slots for " ++
    dayNameStr dayName ++ ": " ++
    String.intercalate ", " ((courtMapping courtId dayName).map Prod.fst)

/-- `resolveScheduleId` from `src/schedule-resolver.ts`.  The `if id = ""`
branch models the JavaScript falsy test `if (!scheduleId)`, which also fires on
an empty string. -/
def resolveScheduleId (courtId : CourtId) (dateDay : Fin 7) (timeSlot : String) :
    Except String String :=
  let dayName := getDayOfWeekName dateDay
  match lookupSlot (courtMapping courtId dayName) timeSlot with
  | some id =>
    if id = "" then Except.error (noScheduleMsg courtId dayName timeSlot)
    else Except.ok id
  | none => Except.error (noScheduleMsg courtId dayName timeSlot)

/-- `isTimeSlotAvailable` from `src/schedule-resolver.ts`:
`mapping[dayOfWeek]?.[timeSlot] !== undefined`. -/
def isTimeSlotAvailable (courtId : CourtId) (dayOfWeek : DayName) (timeSlot : String) : Bool :=
  (lookupSlot (courtMapping courtId dayOfWeek) timeSlot).isSome

/-- `getAvailableTimeSlots` from `src/schedule-resolver.ts`:
`Object.keys(mapping[dayOfWeek] || {})` in key order. -/
def getAvailableTimeSlots (courtId : CourtId) (dayOfWeek : DayName) : List String :=
  (courtMapping courtId dayOfWeek).map Prod.fst

/-! ## Lemmas about the schedule tables (claims C6, C8, C9) -/

deriving instance DecidableEq for Except

/-- Association-list lookup finds the recorded value when the keys are
duplicate-free. -/
theorem lookupSlot_of_mem :
    ∀ (l : List (String × String)), (l.map Prod.fst).Nodup →
      ∀ p : String × String, p ∈ l → lookupSlot l p.1 = some p.2 := by
  intro l
  induction l with
  | nil => intro _ p hp; cases hp
  | cons a t ih =>
    intro hnd p hp
    obtain ⟨k, v⟩ := a
    rcases List.mem_cons.mp hp with hp | hp
    · subst hp; simp [lookupSlot]
    · have hk : k ≠ p.1 := by
        intro hk
        have : p.1 ∈ t.map Prod.fst := List.mem_map_of_mem Prod.fst hp
        rw [List.map_cons, List.nodup_cons] at hnd
        exact hnd.1 (hk ▸ this)
      have hnd' : (t.map Prod.fst).Nodup := by
        rw [List.map_cons, List.nodup_cons] at hnd
        exact hnd.2
      simpa [lookupSlot, hk] using ih hnd' p hp

/-- A successful lookup comes from an entry of the list. -/
theorem mem_of_lookupSlot :
    ∀ (l : List (String × String)) (k v : String),
      lookupSlot l k = some v → (k, v) ∈ l := by
  intro l
  induction l with
  | nil => intro k v h; simp [lookupSlot] at h
  | cons a t ih =>
    intro k v h
    obtain ⟨k0, v0⟩ := a
    by_cases hk : k0 = k
    · rw [lookupSlot, if_pos hk] at h
      obtain rfl : v0 = v := by injection h
      exact hk ▸ List.mem_cons_self _ _
    · rw [lookupSlot, if_neg hk] at h
      exact List.mem_cons_of_mem _ (ih k v h)

/-- Lookup misses when no entry carries the key. -/
theorem lookupSlot_eq_none :
    ∀ (l : List (String × String)) (k : String),
      (∀ p ∈ l, p.1 ≠ k) → lookupSlot l k = none := by
  intro l
  induction l with
  | nil => intro k _; rfl
  | cons a t ih =>
    intro k h
    obtain ⟨k0, v0⟩ := a
    have hk : k0 ≠ k := h (k0, v0) (List.mem_cons_self _ _)
    rw [lookupSlot, if_neg hk]
    exact ih k fun p hp => h p (List.mem_cons_of_mem _ hp)

/-- Within every court and day the recorded time-windows are pairwise
distinct. -/
theorem courtMapping_keys_nodup :
    ∀ (c : CourtId) (d : DayName), ((courtMapping c d).map Prod.fst).Nodup := by
  intro c d; cases c <;> cases d <;> decide

/-- No recorded schedule id is the empty string (so the falsy test in
`resolveScheduleId` fires exactly on lookup misses). -/
theorem courtMapping_values_ne_empty :
    ∀ (c : CourtId) (d : DayName), ∀ p ∈ courtMapping c d, p.2 ≠ "" := by
  intro c d; cases c <;> cases d <;> decide

/-- C6: for every (court, day-of-week, time-window) present in the static
schedule table, `resolveScheduleId` on a date falling on that day returns
exactly the recorded schedule id; for every absent combination it returns the
`SlotResolutionError` message, which ends with the comma-separated enumeration
of the valid time-windows recorded for that court and day. -/
theorem resolveScheduleId_table (c : CourtId) (d : Fin 7) (slot : String) :
    (∀ id : String, (slot, id) ∈ courtMapping c (getDayOfWeekName d) →
      resolveScheduleId c d slot = Except.ok id) ∧
    ((∀ p ∈ courtMapping c (getDayOfWeekName d), p.1 ≠ slot) →
      ∃ pre, resolveScheduleId c d slot =
        Except.error (pre ++ String.intercalate ", "
          (getAvailableTimeSlots c (getDayOfWeekName d)))) := by
  constructor
  · intro id hmem
    have hl : lookupSlot (courtMapping c (getDayOfWeekName d)) slot = some id :=
      lookupSlot_of_mem _ (courtMapping_keys_nodup c (getDayOfWeekName d)) (slot, id) hmem
    have hne : id ≠ "" := courtMapping_values_ne_empty c (getDayOfWeekName d) _ hmem
    simp [resolveScheduleId, hl, hne]
  · intro habs
    have hl := lookupSlot_eq_none _ slot habs
    exact ⟨"No schedule ID found for Court " ++ courtIdStr c ++ ", " ++
      dayNameStr (getDayOfWeekName d) ++ ", " ++ slot ++
      ". Available time slots for " ++ dayNameStr (getDayOfWeekName d) ++ ": ",
      by simp [resolveScheduleId, hl, noScheduleMsg, getAvailableTimeSlots,
        String.append_assoc]⟩

/-- C6 (witness): the table theorem applied to the recorded Court 1 Monday
06:00 slot and to a time-window recorded for no day. -/
theorem resolveScheduleId_table_witness :
    resolveScheduleId CourtId.five (1 : Fin 7) "06:00 AM - 07:00 AM" = Except.ok "239" ∧
    (∃ pre, resolveScheduleId CourtId.seven (0 : Fin 7) "05:00 AM - 06:00 AM" =
      Except.error (pre ++ String.intercalate ", "
        (getAvailableTimeSlots CourtId.seven (getDayOfWeekName (0 : Fin 7))))) :=
  ⟨(resolveScheduleId_table CourtId.five (1 : Fin 7) "06:00 AM - 07:00 AM").1 "239"
      (by decide),
   (resolveScheduleId_table CourtId.seven (0 : Fin 7) "05:00 AM - 06:00 AM").2
      (by decide)⟩

/-- C9: the two resolver entry points agree — `resolveScheduleId` succeeds
exactly when `isTimeSlotAvailable` holds for the date's day of week, and a
returned id is exactly the table entry for that court, day and slot. -/
theorem resolve_agrees_isTimeSlotAvailable (c : CourtId) (d : Fin 7) (slot : String) :
    ((∃ id, resolveScheduleId c d slot = Except.ok id) ↔
      isTimeSlotAvailable c (getDayOfWeekName d) slot = true) ∧
    (∀ id, resolveScheduleId c d slot = Except.ok id →
      lookupSlot (courtMapping c (getDayOfWeekName d)) slot = some id) := by
  rcases hl : lookupSlot (courtMapping c (getDayOfWeekName d)) slot with _ | id
  · constructor
    · constructor
      · rintro ⟨id, h⟩
        rw [resolveScheduleId] at h
        simp only [hl] at h
        cases h
      · intro h
        rw [isTimeSlotAvailable, hl] at h
        cases h
    · intro id h
      rw [resolveScheduleId] at h
      simp only [hl] at h
      cases h
  · have hmem := mem_of_lookupSlot _ _ _ hl
    have hne : id ≠ "" := courtMapping_values_ne_empty c (getDayOfWeekName d) _ hmem
    have hok : resolveScheduleId c d slot = Except.ok id := by
      simp [resolveScheduleId, hl, hne]
    constructor
    · constructor
      · intro _; rw [isTimeSlotAvailable, hl]; rfl
      · intro _; exact ⟨id, hok⟩
    · intro id2 h2
      rw [hok] at h2
      injection h2 with h3
      exact congrArg some h3

/-- C9 (witness): the agreement theorem applied to Court 1 on a Wednesday date
at the recorded 06:00 slot. -/
theorem resolve_agrees_isTimeSlotAvailable_witness :
    isTimeSlotAvailable CourtId.five (getDayOfWeekName (3 : Fin 7))
        "06:00 AM - 07:00 AM" = true ∧
    lookupSlot (courtMapping CourtId.five (getDayOfWeekName (3 : Fin 7)))
        "06:00 AM - 07:00 AM" = some "241" :=
  ⟨(resolve_agrees_isTimeSlotAvailable CourtId.five (3 : Fin 7)
        "06:00 AM - 07:00 AM").1.mp ⟨"241", by decide⟩,
   (resolve_agrees_isTimeSlotAvailable CourtId.five (3 : Fin 7)
        "06:00 AM - 07:00 AM").2 "241" (by decide)⟩

/-- All fourteen (court, day-of-week) table slots. -/
def courtDays : List (CourtId × DayName) :=
  [(CourtId.five, DayName.Monday), (CourtId.five, DayName.Tuesday),
   (CourtId.five, DayName.Wednesday), (CourtId.five, DayName.Thursday),
   (CourtId.five, DayName.Friday), (CourtId.five, DayName.Saturday),
   (CourtId.five, DayName.Sunday),
   (CourtId.seven, DayName.Monday), (CourtId.seven, DayName.Tuesday),
   (CourtId.seven, DayName.Wednesday), (CourtId.seven, DayName.Thursday),
   (CourtId.seven, DayName.Friday), (CourtId.seven, DayName.Saturday),
   (CourtId.seven, DayName.Sunday)]

/-- The schedule ids of both tables, grouped per (court, day). -/
def scheduleIdsByCourtDay : List (List String) :=
  courtDays.map (fun cd => (courtMapping cd.1 cd.2).map Prod.snd)

set_option maxRecDepth 40000 in
/-- All 182 recorded schedule ids are pairwise distinct. -/
theorem scheduleIds_flatten_nodup : scheduleIdsByCourtDay.flatten.Nodup := by decide

/-- `courtDays` is exhaustive. -/
theorem mem_courtDays : ∀ (c : CourtId) (d : DayName), (c, d) ∈ courtDays := by
  intro c d; cases c <;> cases d <;> decide

/-- C8: a schedule id is specific to both court and day-of-week — whenever two
distinct (court, day-of-week) pairs both record some time-window, the recorded
ids differ. -/
theorem scheduleId_specific_to_court_day
    (c1 c2 : CourtId) (d1 d2 : DayName) (w i j : String)
    (hne : ¬(c1 = c2 ∧ d1 = d2))
    (h1 : lookupSlot (courtMapping c1 d1) w = some i)
    (h2 : lookupSlot (courtMapping c2 d2) w = some j) :
    i ≠ j := by
  have hm1 : i ∈ (courtMapping c1 d1).map Prod.snd :=
    List.mem_map_of_mem Prod.snd (mem_of_lookupSlot _ _ _ h1)
  have hm2 : j ∈ (courtMapping c2 d2).map Prod.snd :=
    List.mem_map_of_mem Prod.snd (mem_of_lookupSlot _ _ _ h2)
  have hnd := scheduleIds_flatten_nodup
  rw [List.nodup_flatten] at hnd
  obtain ⟨-, hpw⟩ := hnd
  rw [scheduleIdsByCourtDay, List.pairwise_map] at hpw
  have hsym : Symmetric (fun a b : CourtId × DayName =>
      List.Disjoint ((courtMapping a.1 a.2).map Prod.snd)
        ((courtMapping b.1 b.2).map Prod.snd)) :=
    fun a b h x hx1 hx2 => h hx2 hx1
  have hdiff : ((c1, d1) : CourtId × DayName) ≠ (c2, d2) := by
    intro h
    exact hne ⟨congrArg Prod.fst h, congrArg Prod.snd h⟩
  have hdisj := hpw.forall hsym (mem_courtDays c1 d1) (mem_courtDays c2 d2) hdiff
  intro hij
  subst hij
  exact hdisj hm1 hm2

/-- C8 (witness): the 06:00 Monday window is recorded on both courts with
different ids. -/
theorem scheduleId_specific_witness :
    lookupSlot (courtMapping CourtId.five DayName.Monday) "06:00 AM - 07:00 AM"
        = some "239" ∧
    lookupSlot (courtMapping CourtId.seven DayName.Monday) "06:00 AM - 07:00 AM"
        = some "337" ∧
    "239" ≠ "337" :=
  ⟨by decide, by decide,
   scheduleId_specific_to_court_day CourtId.five CourtId.seven DayName.Monday
     DayName.Monday "06:00 AM - 07:00 AM" "239" "337" (by decide) (by decide)
     (by decide)⟩

/-! ## Concurrent dispatch (`src/engine.ts`, `executeInParallel`)

Each attempt's `executeReservation(page)` runs on its own page and is embedded
as the attempt's standalone result: `Except.ok` the outcome it produces on its
own, or `Except.error` the message of the error it throws.  `Promise.all` over
promises that each catch internally resolves with one record per attempt, in
order, which the embedding renders as a `List.map`. -/

/-- `CourtExecutionOptions` of `engine.ts` (the `page` handle is absorbed into
the execution function's standalone result). -/
structure CourtExecutionOptions (α : Type) where
  courtName : String
  executeReservation : Except String α

/-- One element of the array `executeInParallel` resolves with: either the
value the attempt's execution function returned, or the structured
`{ success: false, error, courtName }` failure record built in the
`catch` block. -/
inductive ExecRecord (α : Type) where
  | outcome (v : α)
  | failure (error : String) (courtName : String)
deriving DecidableEq, Repr

/-- `executeInParallel` from `src/engine.ts`: map each attempt to its own
result, catching a thrown error into a structured failure record. -/
def executeInParallel {α : Type} (courts : List (CourtExecutionOptions α)) :
    List (ExecRecord α) :=
  courts.map fun c =>
    match c.executeReservation with
    | Except.ok v => ExecRecord.outcome v
    | Except.error e => ExecRecord.failure e c.courtName

/-- C1: partial-failure isolation — for every list of attempts,
`executeInParallel` returns exactly one record per attempt; an attempt whose
execution function throws contributes a structured failure record carrying its
own error and court name, and every other attempt's record is exactly the
outcome that attempt produces on its own, unaffected by the failure. -/
theorem executeInParallel_isolation {α : Type} (courts : List (CourtExecutionOptions α)) :
    (executeInParallel courts).length = courts.length ∧
    ∀ k c, courts.get? k = some c →
      (∀ e, c.executeReservation = Except.error e →
        (executeInParallel courts).get? k = some (ExecRecord.failure e c.courtName)) ∧
      (∀ v, c.executeReservation = Except.ok v →
        (executeInParallel courts).get? k = some (ExecRecord.outcome v)) := by
  refine ⟨List.length_map _ _, fun k c hk => ⟨fun e he => ?_, fun v hv => ?_⟩⟩
  · rw [executeInParallel, List.get?_map, hk]
    simp [he]
  · rw [executeInParallel, List.get?_map, hk]
    simp [hv]

/-- A concrete two-attempt batch: the first attempt succeeds on its own, the
second throws. -/
def twoAttemptBatch : List (CourtExecutionOptions String) :=
  [⟨"Cancha de Tenis 1", Except.ok "SUCCESS"⟩,
   ⟨"Cancha de Tenis 2", Except.error "API request failed"⟩]

/-- C1 (witness): two attempts, the second forced to throw; the batch still
yields two records, the first unchanged and the second a structured failure. -/
theorem executeInParallel_isolation_witness :
    (executeInParallel twoAttemptBatch).length = twoAttemptBatch.length ∧
    (executeInParallel twoAttemptBatch).get? 0 =
      some (ExecRecord.outcome "SUCCESS") ∧
    (executeInParallel twoAttemptBatch).get? 1 =
      some (ExecRecord.failure "API request failed" "Cancha de Tenis 2") :=
  ⟨(executeInParallel_isolation twoAttemptBatch).1,
   ((executeInParallel_isolation twoAttemptBatch).2 0
      ⟨"Cancha de Tenis 1", Except.ok "SUCCESS"⟩ rfl).2 "SUCCESS" rfl,
   ((executeInParallel_isolation twoAttemptBatch).2 1
      ⟨"Cancha de Tenis 2", Except.error "API request failed"⟩ rfl).1
      "API request failed" rfl⟩

/-! ## Unlock polling (`src/site-adapter.ts`, `pollForDateUnlock`)

The loop is embedded over an observation oracle `found : Nat → Bool` telling
whether the date's clickable-cell selector matches at a given elapsed time.
Under zero clock skew with exact sleeps, the k-th iteration of the loop runs at
elapsed time `pollIntervalMs * k`.  The loop body first increments the attempt
counter, then checks the element, then checks the deadline, then sleeps; the
fuel argument bounds the iteration count (the deadline check guarantees the
bound below is never reached when the poll interval is positive). -/

/-- The timeout error thrown by `pollForDateUnlock`, carrying the max wait and
the attempt count interpolated into its message. -/
structure UnlockTimeoutError where
  maxWaitMs : Nat
  attemptCount : Nat
deriving DecidableEq, Repr

/-- One-iteration-per-fuel unfolding of the `while (true)` loop of
`pollForDateUnlock`: element check first, deadline check second, else sleep
`pollIntervalMs` and repeat. -/
def pollRun (found : Nat → Bool) (pollIntervalMs maxWaitMs : Nat) :
    Nat → Nat → Nat → Option (Except UnlockTimeoutError Nat)
  | 0, _, _ => none
  | fuel + 1, attemptCount, elapsed =>
    if found elapsed then some (Except.ok elapsed)
    else if maxWaitMs ≤ elapsed then
      some (Except.error ⟨maxWaitMs, attemptCount + 1⟩)
    else
      pollRun found pollIntervalMs maxWaitMs fuel (attemptCount + 1)
        (elapsed + pollIntervalMs)

/-- `pollForDateUnlock` from `src/site-adapter.ts` over the observation oracle;
the fuel `maxWaitMs / pollIntervalMs + 2` covers every iteration the deadline
check allows. -/
def pollForDateUnlock (found : Nat → Bool) (pollIntervalMs maxWaitMs : Nat) :
    Option (Except UnlockTimeoutError Nat) :=
  pollRun found pollIntervalMs maxWaitMs (maxWaitMs / pollIntervalMs + 2) 0 0

/-- Run lemma: the loop returns `ok` at the first iteration whose observation
succeeds, provided every earlier iteration neither observed the element nor hit
the deadline. -/
theorem pollRun_ok (found : Nat → Bool) (pollMs maxWait : Nat) :
    ∀ (k fuel a e : Nat), k < fuel →
      (∀ i < k, found (e + pollMs * i) = false) →
      (∀ i < k, e + pollMs * i < maxWait) →
      found (e + pollMs * k) = true →
      pollRun found pollMs maxWait fuel a e = some (Except.ok (e + pollMs * k)) := by
  intro k
  induction k with
  | zero =>
    intro fuel a e hf _ _ hfound
    obtain ⟨f, rfl⟩ : ∃ f, fuel = f + 1 := ⟨fuel - 1, by omega⟩
    rw [Nat.mul_zero, Nat.add_zero] at hfound
    rw [pollRun, hfound]
    simp
  | succ k ih =>
    intro fuel a e hf hprev hbnd hfound
    obtain ⟨f, rfl⟩ : ∃ f, fuel = f + 1 := ⟨fuel - 1, by omega⟩
    have h0found : found e = false := by
      have h := hprev 0 (by omega)
      rwa [Nat.mul_zero, Nat.add_zero] at h
    have h0bnd : e < maxWait := by
      have h := hbnd 0 (by omega)
      rwa [Nat.mul_zero, Nat.add_zero] at h
    have hstep : ∀ i : Nat, e + pollMs + pollMs * i = e + pollMs * (i + 1) := by
      intro i
      rw [Nat.mul_succ]
      omega
    rw [pollRun, h0found]
    simp only [Bool.false_eq_true, if_false, if_neg (by omega : ¬maxWait ≤ e)]
    have hgoal := ih f (a + 1) (e + pollMs) (by omega)
      (fun i hi => by rw [hstep i]; exact hprev (i + 1) (by omega))
      (fun i hi => by rw [hstep i]; exact hbnd (i + 1) (by omega))
      (by rw [hstep k]; exact hfound)
    rw [hgoal, hstep k]

/-- Run lemma: the loop raises the timeout error, carrying the attempt count,
at the first iteration at or past the deadline when no iteration up to and
including it observes the element. -/
theorem pollRun_timeout (found : Nat → Bool) (pollMs maxWait : Nat) :
    ∀ (k fuel a e : Nat), k < fuel →
      (∀ i ≤ k, found (e + pollMs * i) = false) →
      (∀ i < k, e + pollMs * i < maxWait) →
      maxWait ≤ e + pollMs * k →
      pollRun found pollMs maxWait fuel a e =
        some (Except.error ⟨maxWait, a + k + 1⟩) := by
  intro k
  induction k with
  | zero =>
    intro fuel a e hf hall _ htm
    obtain ⟨f, rfl⟩ : ∃ f, fuel = f + 1 := ⟨fuel - 1, by omega⟩
    have h0found : found e = false := by
      have h := hall 0 (by omega)
      rwa [Nat.mul_zero, Nat.add_zero] at h
    rw [Nat.mul_zero, Nat.add_zero] at htm
    rw [pollRun, h0found]
    simp [htm]
  | succ k ih =>
    intro fuel a e hf hall hbnd htm
    obtain ⟨f, rfl⟩ : ∃ f, fuel = f + 1 := ⟨fuel - 1, by omega⟩
    have h0found : found e = false := by
      have h := hall 0 (by omega)
      rwa [Nat.mul_zero, Nat.add_zero] at h
    have h0bnd : e < maxWait := by
      have h := hbnd 0 (by omega)
      rwa [Nat.mul_zero, Nat.add_zero] at h
    have hstep : ∀ i : Nat, e + pollMs + pollMs * i = e + pollMs * (i + 1) := by
      intro i
      rw [Nat.mul_succ]
      omega
    rw [pollRun, h0found]
    simp only [Bool.false_eq_true, if_false, if_neg (by omega : ¬maxWait ≤ e)]
    have hgoal := ih f (a + 1) (e + pollMs) (by omega)
      (fun i hi => by rw [hstep i]; exact hall (i + 1) (by omega))
      (fun i hi => by rw [hstep i]; exact hbnd (i + 1) (by omega))
      (by rw [hstep k]; exact htm)
    rw [hgoal]
    have hcnt : a + 1 + k + 1 = a + (k + 1) + 1 := by omega
    rw [hcnt]

/-- Run lemma: with fuel reaching the deadline, the loop always produces a
result. -/
theorem pollRun_total (found : Nat → Bool) (pollMs maxWait : Nat) :
    ∀ (fuel a e : Nat), 0 < fuel → maxWait ≤ e + pollMs * (fuel - 1) →
      (pollRun found pollMs maxWait fuel a e).isSome = true := by
  intro fuel
  induction fuel with
  | zero => intro a e h; omega
  | succ f ih =>
    intro a e _ hcover
    rw [pollRun]
    rcases hfe : found e with _ | _
    · simp only [Bool.false_eq_true, if_false]
      by_cases htm : maxWait ≤ e
      · rw [if_pos htm]
        rfl
      · rw [if_neg htm]
        have hf1 : 0 < f := by
          rcases Nat.eq_zero_or_pos f with hf0 | hf0
          · subst hf0
            rw [Nat.mul_zero] at hcover
            omega
          · exact hf0
        apply ih (a + 1) (e + pollMs) hf1
        have hms : pollMs * (f + 1 - 1) = pollMs * (f - 1) + pollMs := by
          obtain ⟨f0, rfl⟩ : ∃ f0, f = f0 + 1 := ⟨f - 1, by omega⟩
          show pollMs * (f0 + 1) = pollMs * f0 + pollMs
          rw [Nat.mul_succ]
        omega
    · simp

/-- Fuel bound: an iteration strictly before the deadline sits strictly below
`maxWait / pollMs + 1`. -/
theorem poll_iter_lt_fuel (pollMs maxWait k : Nat) (hp : 0 < pollMs)
    (h : pollMs * k < maxWait) : k < maxWait / pollMs + 1 := by
  by_contra hcon
  push_neg at hcon
  have h2 : pollMs * (maxWait / pollMs + 1) ≤ pollMs * k := Nat.mul_le_mul_left _ hcon
  have h3 : pollMs * (maxWait / pollMs + 1) = pollMs * (maxWait / pollMs) + pollMs :=
    Nat.mul_succ _ _
  have hdm := Nat.div_add_mod maxWait pollMs
  have hmod := Nat.mod_lt maxWait hp
  omega

/-- C3 (amended): with a positive poll interval, `pollForDateUnlock` always
completes with either a success value or an exception; if the affordance is
first observed at a poll strictly before the `maxWaitMs` deadline it returns
that elapsed time (strictly below `maxWaitMs`); and if no poll up to and
including the first one at or past the deadline observes it, it raises a
timeout error whose attempt count is strictly positive.  (When the affordance
is first observed exactly at the first poll past the deadline, the code returns
that elapsed time ≥ `maxWaitMs` instead of raising — the counterexample.) -/
theorem pollForDateUnlock_spec (found : Nat → Bool) (pollMs maxWait : Nat)
    (hp : 0 < pollMs) :
    (∃ r, pollForDateUnlock found pollMs maxWait = some r) ∧
    (∀ k, (∀ i < k, found (pollMs * i) = false) → found (pollMs * k) = true →
      pollMs * k < maxWait →
      pollForDateUnlock found pollMs maxWait = some (Except.ok (pollMs * k))) ∧
    (∀ k, (∀ i ≤ k, found (pollMs * i) = false) →
      (∀ i < k, pollMs * i < maxWait) → maxWait ≤ pollMs * k →
      pollForDateUnlock found pollMs maxWait =
        some (Except.error ⟨maxWait, k + 1⟩) ∧ 0 < k + 1) := by
  have hdm := Nat.div_add_mod maxWait pollMs
  have hmod := Nat.mod_lt maxWait hp
  refine ⟨?_, ?_, ?_⟩
  · have hcover : maxWait ≤ 0 + pollMs * (maxWait / pollMs + 2 - 1) := by
      have h3 : maxWait / pollMs + 2 - 1 = maxWait / pollMs + 1 := rfl
      rw [h3, Nat.zero_add, Nat.mul_succ]
      omega
    have h := pollRun_total found pollMs maxWait (maxWait / pollMs + 2) 0 0
      (Nat.succ_pos _) hcover
    rcases Option.isSome_iff_exists.mp h with ⟨r, hr⟩
    exact ⟨r, hr⟩
  · intro k hprev hfound hlt
    have hkf : k < maxWait / pollMs + 2 := by
      have := poll_iter_lt_fuel pollMs maxWait k hp hlt
      omega
    have h := pollRun_ok found pollMs maxWait k (maxWait / pollMs + 2) 0 0 hkf
      (fun i hi => by rw [Nat.zero_add]; exact hprev i hi)
      (fun i hi => by
        rw [Nat.zero_add]
        calc pollMs * i ≤ pollMs * k := Nat.mul_le_mul_left _ (by omega)
          _ < maxWait := hlt)
      (by rw [Nat.zero_add]; exact hfound)
    rw [pollForDateUnlock, h, Nat.zero_add]
  · intro k hall hbnd htm
    have hkf : k < maxWait / pollMs + 2 := by
      cases k with
      | zero => exact Nat.succ_pos _
      | succ k0 =>
        have := poll_iter_lt_fuel pollMs maxWait k0 hp (hbnd k0 (by omega))
        omega
    have h := pollRun_timeout found pollMs maxWait k (maxWait / pollMs + 2) 0 0 hkf
      (fun i hi => by rw [Nat.zero_add]; exact hall i hi)
      (fun i hi => by rw [Nat.zero_add]; exact hbnd i hi)
      (by rw [Nat.zero_add]; exact htm)
    rw [pollForDateUnlock, h, Nat.zero_add]
    exact ⟨rfl, by omega⟩

/-- C3 (counterexample): with the default 180 ms interval and 15000 ms max
wait, an affordance first present at 14950 ms — before the deadline — is first
observed at the poll at 15120 ms: `pollForDateUnlock` then returns the elapsed
time 15120, which is not below the deadline, and raises nothing. -/
theorem pollForDateUnlock_counterexample :
    pollForDateUnlock (fun t => decide (14950 ≤ t)) 180 15000 =
      some (Except.ok 15120) ∧ ¬(15120 < 15000) :=
  ⟨by decide, by omega⟩

/-- C3 (witness): the amended theorem applied to an affordance appearing at
360 ms (observed at the third poll, well before the deadline) and to one that
never appears (timeout after the 85th attempt). -/
theorem pollForDateUnlock_spec_witness :
    pollForDateUnlock (fun t => decide (360 ≤ t)) 180 15000 =
      some (Except.ok 360) ∧
    pollForDateUnlock (fun _ => false) 180 15000 =
      some (Except.error ⟨15000, 85⟩) :=
  ⟨by
    have h := (pollForDateUnlock_spec (fun t => decide (360 ≤ t)) 180 15000
      (by omega)).2.1 2 (by decide) (by decide) (by omega)
    simpa using h,
   by
    have h := ((pollForDateUnlock_spec (fun _ => false) 180 15000
      (by omega)).2.2 84 (fun i _ => rfl) (fun i hi => by omega) (by omega)).1
    simpa using h⟩

/-! ## Midnight wait (`scripts/reserve.ts`, `waitUntilMidnight`)

Both cited implementations re-check the Costa Rica clock and sleep again
whenever the clock does not read exactly 00:00:00; the sleep is
`min((60 - seconds) * 1000, 1000) = 1000` ms in one and a fixed 1000 ms in the
other.  Time is embedded as milliseconds since the previous Costa Rica
midnight, so the clock reads 00:00:00 exactly when `t % 86400000 < 1000`;
under zero clock skew with exact sleeps the k-th check runs at `start +
1000 * k`. -/

/-- The `while (true)` poll loop shared by both `waitUntilMidnight`
implementations: check the clock, resolve at 00:00:00, otherwise sleep one
second; returns (number of clock checks, resolve time).  The fuel covers one
full day of one-second polls. -/
def crPollLoop : Nat → Nat → Nat → Option (Nat × Nat)
  | 0, _, _ => none
  | fuel + 1, checks, t =>
    if t % 86400000 < 1000 then some (checks + 1, t)
    else crPollLoop fuel (checks + 1) (t + 1000)

/-- `waitUntilMidnight` from `scripts/reserve.ts` (and `reservePhase`'s twin in
the Playwright script) over the idealized clock. -/
def waitUntilMidnight (start : Nat) : Option (Nat × Nat) :=
  crPollLoop 86401 0 start

/-- Run lemma: the loop resolves at the first check whose clock reads
00:00:00. -/
theorem crPollLoop_run :
    ∀ (j fuel checks t : Nat), j < fuel →
      (∀ i < j, ¬((t + 1000 * i) % 86400000 < 1000)) →
      (t + 1000 * j) % 86400000 < 1000 →
      crPollLoop fuel checks t = some (checks + j + 1, t + 1000 * j) := by
  intro j
  induction j with
  | zero =>
    intro fuel checks t hf _ hhit
    obtain ⟨f, rfl⟩ : ∃ f, fuel = f + 1 := ⟨fuel - 1, by omega⟩
    rw [Nat.mul_zero, Nat.add_zero] at hhit
    rw [crPollLoop, if_pos hhit]
    simp
  | succ j ih =>
    intro fuel checks t hf hprev hhit
    obtain ⟨f, rfl⟩ : ∃ f, fuel = f + 1 := ⟨fuel - 1, by omega⟩
    have h0 : ¬(t % 86400000 < 1000) := by
      have h := hprev 0 (by omega)
      rwa [Nat.mul_zero, Nat.add_zero] at h
    have hstep : ∀ i : Nat, t + 1000 + 1000 * i = t + 1000 * (i + 1) := by
      intro i
      rw [Nat.mul_succ]
      omega
    rw [crPollLoop, if_neg h0]
    have hgoal := ih f (checks + 1) (t + 1000) (by omega)
      (fun i hi => by rw [hstep i]; exact hprev (i + 1) (by omega))
      (by rw [hstep j]; exact hhit)
    rw [hgoal, hstep j]
    have hcnt : checks + 1 + j + 1 = checks + (j + 1) + 1 := by omega
    rw [hcnt]

/-- C5 (counterexample): invoked three seconds before midnight, the wait
performs four separate clock checks, one per second — a poll loop, not the at
most two checks a single blocking wait to the instant would make. -/
theorem waitUntilMidnight_counterexample :
    waitUntilMidnight 86397000 = some (4, 86400000) ∧ ¬(4 ≤ 2) :=
  ⟨by decide, by omega⟩

/-- C5 (amended): `waitUntilMidnight` is a one-second poll loop.  Under zero
clock skew with exact one-second polling, an invocation at `start` ms after the
previous Costa Rica midnight (at least one second in, before the next midnight
at 86400000 ms) never resolves before the next midnight, resolves within one
polling quantum (1000 ms) after it, and performs one clock check per remaining
second — `86400 - start / 1000 + 1` checks in all — rather than sleeping once
through to the instant. -/
theorem waitUntilMidnight_spec (start : Nat) (h1 : 1000 ≤ start)
    (h2 : start < 86400000) :
    waitUntilMidnight start =
      some (86400 - start / 1000 + 1, 86400000 + start % 1000) ∧
    86400000 ≤ 86400000 + start % 1000 ∧
    86400000 + start % 1000 < 86400000 + 1000 := by
  have hdm := Nat.div_add_mod start 1000
  have hmod : start % 1000 < 1000 := Nat.mod_lt _ (by omega)
  set q := start / 1000 with hq
  set r := start % 1000 with hr
  have hq1 : 1 ≤ q := by omega
  have hq2 : q ≤ 86399 := by omega
  have hrun := crPollLoop_run (86400 - q) 86401 0 start (by omega)
    (fun i hi => by
      have hlin : start + 1000 * i = 1000 * (q + i) + r := by
        rw [Nat.mul_add]
        omega
      have hlt : start + 1000 * i < 86400000 := by
        rw [hlin]
        have : q + i ≤ 86399 := by omega
        have := Nat.mul_le_mul_left 1000 this
        omega
      rw [Nat.mod_eq_of_lt hlt]
      omega)
    (by
      have heq : start + 1000 * (86400 - q) = 86400000 + r := by
        have : 1000 * (86400 - q) + 1000 * q = 86400000 := by
          rw [← Nat.mul_add]
          have : 86400 - q + q = 86400 := by omega
          rw [this]
        omega
      rw [heq, Nat.add_mod_left, Nat.mod_eq_of_lt (by omega)]
      omega)
  have heq2 : start + 1000 * (86400 - q) = 86400000 + r := by
    have : 1000 * (86400 - q) + 1000 * q = 86400000 := by
      rw [← Nat.mul_add]
      have : 86400 - q + q = 86400 := by omega
      rw [this]
    omega
  refine ⟨?_, by omega, by omega⟩
  rw [waitUntilMidnight, hrun, heq2, Nat.zero_add]

/-- C5 (witness): the amended theorem applied to an invocation at noon — 43201
one-second checks, resolving exactly at the midnight instant. -/
theorem waitUntilMidnight_spec_witness :
    waitUntilMidnight 43200000 = some (43201, 86400000) := by
  have h := (waitUntilMidnight_spec 43200000 (by omega) (by omega)).1
  simpa using h

/-! ## Reserve phase and the ALLOW_BOOKING dead-man switch
(`scripts/reserve.ts` (Playwright variant), steps 1–13 of `reservePhase`;
`src/site-adapter.ts`, `submitReservation`)

The phase's I/O steps are embedded over an oracle record giving each step's
outcome; the function returns the ordered list of actions performed together
with the thrown error or returned result.  `submitClick` is emitted exactly
where `SiteAdapter.submitReservation` clicks `#save_btn`. -/

/-- Observable actions of one run of `reservePhase`, in program order. -/
inductive PhaseAction where
  | openModal
  | selectArea
  | findCalendar
  | pollUnlock
  | clickDate
  | findDayView
  | openForm
  | selectSlot
  | warnDeadManSwitch
  | shadowSkip
  | warnBlocked
  | submitClick
  | detectResult
deriving DecidableEq, Repr

/-- The `ReservationResult` fields the gate logic writes. -/
structure PhaseResult where
  success : Bool
  error : Option String
deriving DecidableEq, Repr

/-- Command-line / environment switches read by `reservePhase`. -/
structure PhaseArgs where
  shadowMode : Bool
  noBooking : Bool
deriving DecidableEq, Repr

/-- Oracle for one run: outcomes of the I/O steps and the ambient
ALLOW_BOOKING flags. -/
structure PhaseWorld where
  modalOk : Bool
  calendarFound : Bool
  unlockElapsed : Option Nat
  dayViewFound : Bool
  formFrameFound : Bool
  slotSelected : Bool
  allowEnvSet : Bool
  sentinelExists : Bool
  resultType : MessageType
deriving DecidableEq, Repr

/-- `reservePhase` step skeleton: steps 1–9 each throw on failure; step 10
computes `allowBooking = ALLOW_BOOKING === "1" || (existsSync("/tmp/allow_booking")
&& !ARGS.noBooking)` and warns when it is absent outside shadow mode; step 11
returns early in shadow mode, returns the BLOCKED_BY_ALLOW_BOOKING result when
`shouldSubmit` is false, and otherwise clicks submit; steps 12–13 classify the
result frame, throwing on every non-success type. -/
def reservePhase (args : PhaseArgs) (w : PhaseWorld) :
    List PhaseAction × Except String PhaseResult :=
  if w.modalOk = false then
    ([PhaseAction.openModal], Except.error "Could not open reservations modal")
  else if w.calendarFound = false then
    ([PhaseAction.openModal, PhaseAction.selectArea, PhaseAction.findCalendar],
      Except.error "Could not find calendar iframe")
  else
    match w.unlockElapsed with
    | none =>
      ([PhaseAction.openModal, PhaseAction.selectArea, PhaseAction.findCalendar,
        PhaseAction.pollUnlock],
        Except.error "DATE_NOT_AVAILABLE_YET - Date not clickable")
    | some _ =>
      if w.dayViewFound = false then
        ([PhaseAction.openModal, PhaseAction.selectArea, PhaseAction.findCalendar,
          PhaseAction.pollUnlock, PhaseAction.clickDate, PhaseAction.findDayView],
          Except.error "Could not find day view iframe")
      else if w.formFrameFound = false then
        ([PhaseAction.openModal, PhaseAction.selectArea, PhaseAction.findCalendar,
          PhaseAction.pollUnlock, PhaseAction.clickDate, PhaseAction.findDayView,
          PhaseAction.openForm],
          Except.error "Could not find reservation form iframe")
      else if w.slotSelected = false then
        ([PhaseAction.openModal, PhaseAction.selectArea, PhaseAction.findCalendar,
          PhaseAction.pollUnlock, PhaseAction.clickDate, PhaseAction.findDayView,
          PhaseAction.openForm, PhaseAction.selectSlot],
          Except.error "TIME_SLOT_NOT_FOUND")
      else
        let allowBooking := w.allowEnvSet || (w.sentinelExists && !args.noBooking)
        let warnTrace :=
          if !allowBooking && !args.shadowMode then [PhaseAction.warnDeadManSwitch]
          else []
        let base := [PhaseAction.openModal, PhaseAction.selectArea,
          PhaseAction.findCalendar, PhaseAction.pollUnlock, PhaseAction.clickDate,
          PhaseAction.findDayView, PhaseAction.openForm, PhaseAction.selectSlot] ++
          warnTrace
        let shouldSubmit := !args.shadowMode && allowBooking
        if args.shadowMode then
          (base ++ [PhaseAction.shadowSkip], Except.ok ⟨true, none⟩)
        else if shouldSubmit = false then
          (base ++ [PhaseAction.warnBlocked],
            Except.ok ⟨false, some "BLOCKED_BY_ALLOW_BOOKING"⟩)
        else
          let full := base ++ [PhaseAction.submitClick, PhaseAction.detectResult]
          match w.resultType with
          | MessageType.SUCCESS => (full, Except.ok ⟨true, none⟩)
          | MessageType.SLOT_TAKEN =>
            (full, Except.error "SLOT_TAKEN: Time slot already taken - someone else reserved it first")
          | MessageType.RESERVATION_LIMIT =>
            (full, Except.error "RESERVATION_LIMIT: Reservation limit exceeded - you have already used your allowed reservations")
          | MessageType.NOT_YET_AVAILABLE =>
            (full, Except.error "DATE_NOT_AVAILABLE_YET: Not available yet")
          | MessageType.UNKNOWN =>
            (full, Except.error "UNKNOWN_ERROR: Could not classify reservation response")

/-- C4: dead-man switch — with the allow flag absent (`ALLOW_BOOKING` not
`"1"`, and the `/tmp/allow_booking` sentinel either missing or neutralized by
`--no-booking`) and shadow mode off, a run whose steps succeed executes every
step up to and including time-slot selection, never performs the submit click,
logs that submission was withheld, and returns the structured outcome
`success = false`, `error = BLOCKED_BY_ALLOW_BOOKING`. -/
theorem reservePhase_deadman (args : PhaseArgs) (w : PhaseWorld)
    (hallow : w.allowEnvSet = false)
    (hsent : (w.sentinelExists && !args.noBooking) = false)
    (hshadow : args.shadowMode = false)
    (hm : w.modalOk = true) (hc : w.calendarFound = true)
    (hu : w.unlockElapsed.isSome = true) (hd : w.dayViewFound = true)
    (hf : w.formFrameFound = true) (hs : w.slotSelected = true) :
    (reservePhase args w).1 =
      [PhaseAction.openModal, PhaseAction.selectArea, PhaseAction.findCalendar,
       PhaseAction.pollUnlock, PhaseAction.clickDate, PhaseAction.findDayView,
       PhaseAction.openForm, PhaseAction.selectSlot,
       PhaseAction.warnDeadManSwitch, PhaseAction.warnBlocked] ∧
    PhaseAction.selectSlot ∈ (reservePhase args w).1 ∧
    PhaseAction.submitClick ∉ (reservePhase args w).1 ∧
    PhaseAction.warnDeadManSwitch ∈ (reservePhase args w).1 ∧
    (reservePhase args w).2 =
      Except.ok ⟨false, some "BLOCKED_BY_ALLOW_BOOKING"⟩ := by
  obtain ⟨e, he⟩ := Option.isSome_iff_exists.mp hu
  have htrace : reservePhase args w =
      ([PhaseAction.openModal, PhaseAction.selectArea, PhaseAction.findCalendar,
        PhaseAction.pollUnlock, PhaseAction.clickDate, PhaseAction.findDayView,
        PhaseAction.openForm, PhaseAction.selectSlot,
        PhaseAction.warnDeadManSwitch, PhaseAction.warnBlocked],
        Except.ok ⟨false, some "BLOCKED_BY_ALLOW_BOOKING"⟩) := by
    rw [reservePhase]
    simp [hm, hc, he, hd, hf, hs, hallow, hsent, hshadow]
  rw [htrace]
  refine ⟨rfl, by decide, by decide, by decide, rfl⟩

/-- C4 (witness): the dead-man theorem applied to a concrete fully-successful
run with `ALLOW_BOOKING` unset, no sentinel, shadow mode off. -/
theorem reservePhase_deadman_witness :
    (reservePhase ⟨false, false⟩
      ⟨true, true, some 1200, true, true, true, false, false, MessageType.SUCCESS⟩).2 =
      Except.ok ⟨false, some "BLOCKED_BY_ALLOW_BOOKING"⟩ :=
  (reservePhase_deadman ⟨false, false⟩
    ⟨true, true, some 1200, true, true, true, false, false, MessageType.SUCCESS⟩
    rfl rfl rfl rfl rfl rfl rfl rfl rfl).2.2.2.2

/-! ## Mobile API client (`src/mobile-api-client.ts`, constructor and
`getPasswordHash`)

The MD5 digest comes from the external `crypto` library and is embedded as an
abstract digest function passed to the constructor model; the repository's own
logic is the branch deciding whether to hash at all. -/

/-- The character class `[a-f0-9]` of the constructor's pre-hash test, with the
`i` flag (so `A`–`F` also match). -/
def isHexCharCI (c : Char) : Bool :=
  c.isDigit || ('a' ≤ c && c ≤ 'f') || ('A' ≤ c && c ≤ 'F')

/-- `password.length === 32 && /^[a-f0-9]+$/i.test(password)`: a 32-character
string of hexadecimal characters (anchored, so every character matches; the
length makes it nonempty). -/
def isPreHashedShape (p : String) : Bool :=
  p.length == 32 && p.data.all isHexCharCI

/-- The state `MobileAPIClient`'s constructor stores. -/
structure MobileAPIClient where
  username : String
  passwordHash : String
deriving DecidableEq, Repr

/-- The `MobileAPIClient` constructor over an abstract MD5-hex digest
`md5hex`: if `isPreHashed` is passed or the password already looks like an MD5
hex digest, store `password.toLowerCase()`; otherwise store the digest of the
password. -/
def mkMobileAPIClient (md5hex : String → String) (username password : String)
    (isPreHashed : Bool) : MobileAPIClient :=
  if isPreHashed || isPreHashedShape password then
    ⟨username, String.mk (password.data.map jsLower)⟩
  else
    ⟨username, md5hex password⟩

/-- `getPasswordHash` from `src/mobile-api-client.ts`. -/
def getPasswordHash (c : MobileAPIClient) : String :=
  c.passwordHash

/-- C10: with `isPreHashed` left `false`, the constructor stores the digest of
the password — except when the password is a 32-character hexadecimal string,
in which case the lowercased password is stored directly without hashing — and
`getPasswordHash` returns that stored value. -/
theorem mobileClient_password_hash (md5hex : String → String) (u p : String) :
    (p.length = 32 → (∀ c ∈ p.data, isHexCharCI c = true) →
      getPasswordHash (mkMobileAPIClient md5hex u p false) =
        String.mk (p.data.map jsLower)) ∧
    (¬(p.length = 32 ∧ ∀ c ∈ p.data, isHexCharCI c = true) →
      getPasswordHash (mkMobileAPIClient md5hex u p false) = md5hex p) := by
  constructor
  · intro hlen hhex
    have hshape : isPreHashedShape p = true := by
      rw [isPreHashedShape, Bool.and_eq_true, beq_iff_eq, List.all_eq_true]
      exact ⟨hlen, hhex⟩
    simp [mkMobileAPIClient, getPasswordHash, hshape]
  · intro hnot
    have hshape : isPreHashedShape p = false := by
      rcases hb : isPreHashedShape p with _ | _
      · rfl
      · rw [isPreHashedShape, Bool.and_eq_true, beq_iff_eq, List.all_eq_true] at hb
        exact absurd hb hnot
    simp [mkMobileAPIClient, getPasswordHash, hshape]

/-- C10 (witness): the hash theorem applied to a concrete abstract digest, a
mixed-case 32-character hex password (stored lowercased, unhashed) and an
ordinary password (stored as its digest). -/
theorem mobileClient_password_hash_witness :
    getPasswordHash (mkMobileAPIClient (fun _ => "feedc0de") "house42"
        "ABCDEF0123456789abcdef0123456789" false) =
      "abcdef0123456789abcdef0123456789" ∧
    getPasswordHash (mkMobileAPIClient (fun _ => "feedc0de") "house42"
        "hunter2!" false) = "feedc0de" :=
  ⟨by
    have h := (mobileClient_password_hash (fun _ => "feedc0de") "house42"
      "ABCDEF0123456789abcdef0123456789").1 (by decide) (by decide)
    simpa using h,
   (mobileClient_password_hash (fun _ => "feedc0de") "house42" "hunter2!").2
    (by decide)⟩
